import Mathlib

/-!
Verification development for the rei-tools property analysis pipeline
(src/property_report/report_generator.py and rentcast_client.py).

Numbers that Python represents as floats are modelled as rationals, so the
arithmetic identities are exact; Python dictionaries with possibly missing
keys are modelled as structures of Option fields, and Python truthiness of
a numeric value (0 and None are falsy) is made explicit in small helpers.
The Rentcast client is modelled as a function from the query record built
at the call site to an Except value: Except.error models a raised
RentcastAPIError, Except.ok a returned list.
-/

/-- Truthiness of an optional rational, as Python sees the result of
dict.get: None and 0 are falsy, everything else truthy. -/
def qTruthy (o : Option ℚ) : Bool := o.getD 0 ≠ 0

/-- Python idiom `dict.get(key) or d` on a numeric field: the default d is
used when the key is missing or the stored value is 0. -/
def qOrDefault (o : Option ℚ) (d : ℚ) : ℚ := if o.getD 0 = 0 then d else o.getD 0

/-- Python idiom `dict.get(key, 0) or d` on an integer field. -/
def iOrDefault (o : Option Int) (d : Int) : Int := if o.getD 0 = 0 then d else o.getD 0

/-- Python int() applied to a rational: truncation toward zero. -/
def pyInt (q : ℚ) : Int := if 0 ≤ q then q.floor else q.ceil

/-- Rounding used by the Python format specifier ",.0f": round half to even. -/
def roundHalfEven (q : ℚ) : Int :=
  let n := q.floor
  let frac := q - n
  if frac < 1/2 then n
  else if 1/2 < frac then n + 1
  else if n % 2 = 0 then n else n + 1

/-- Insert a comma every three digits, working over the reversed digit list. -/
def commaGroupAux : Nat → List Char → List Char
  | _, [] => []
  | k, c :: cs =>
    if k % 3 = 0 ∧ k ≠ 0 then c :: ',' :: commaGroupAux (k + 1) cs
    else c :: commaGroupAux (k + 1) cs

/-- Comma-grouped decimal rendering of an integer, as Python f-string
formatting with the "," option produces. -/
def commaGroup (n : Int) : String :=
  let ds := (toString n.natAbs).toList.reverse
  (if n < 0 then "-" else "") ++ String.mk ((commaGroupAux 0 ds).reverse)

/-- The text produced for a price by the Python format specifier ",.0f". -/
def formatDollars (p : ℚ) : String := commaGroup (roundHalfEven p)

/-- Error raised by the Rentcast client; carries its message text. -/
structure RentcastAPIError where
  msg : String
deriving DecidableEq, Repr

/-- Configuration of a single zip code (config_manager.ZipCodeConfig). -/
structure ZipCodeConfig where
  zip_code : String
  min_price : Option ℚ := none
  max_price : Option ℚ := none
  min_sqft : Option Int := none
  max_sqft : Option Int := none
deriving DecidableEq, Repr

/-- A raw sale listing as returned by the listings endpoint: a dictionary
whose keys may be absent. -/
structure Listing where
  formattedAddress : Option String := none
  zipCode : Option String := none
  price : Option ℚ := none
  squareFootage : Option Int := none
  propertyType : Option String := none
  bedrooms : Option ℚ := none
  bathrooms : Option ℚ := none
  latitude : Option ℚ := none
  longitude : Option ℚ := none
deriving DecidableEq, Repr

/-- A raw sold property record as returned by the properties endpoint. -/
structure SoldProperty where
  formattedAddress : Option String := none
  addressLine1 : Option String := none
  lastSalePrice : Option ℚ := none
  squareFootage : Option Int := none
  bedrooms : Option ℚ := none
  bathrooms : Option ℚ := none
  lastSaleDate : Option String := none
deriving DecidableEq, Repr

/-- The dictionary built for each surviving comparable in
ReportGenerator._filter_and_analyze_comps. -/
structure FilteredComp where
  formattedAddress : String
  price : ℚ
  squareFootage : Int
  bedrooms : Option ℚ
  bathrooms : Option ℚ
  lastSaleDate : String
deriving DecidableEq, Repr

instance : Inhabited FilteredComp := ⟨⟨"", 0, 0, none, none, ""⟩⟩

/-- The PropertyAnalysis dataclass, including its default field values. -/
structure PropertyAnalysis where
  address : String
  zip_code : String
  list_price : ℚ
  square_footage : Int
  property_type : String
  bedrooms : Option ℚ := none
  bathrooms : Option ℚ := none
  best_offer_price : ℚ := 0
  best_offer_comparables : List String := []
  build_up_cost : ℚ := 0
  financing_cost : ℚ := 0
  all_inclusive_cost : ℚ := 0
  upside_value : ℚ := 0
  upside_comparables : List String := []
  upside_profit : ℚ := 0
  decision : String := "No"
  error_message : Option String := none
deriving DecidableEq, Repr

/-- The constants the ReportGenerator constructor stores, with the default
values of report_generator.py. -/
structure ReportConfig where
  build_up_cost_per_sqft : ℚ := 75
  financing_rate : ℚ := 12/100
  upside_threshold : ℚ := 30000
  comp_price_threshold : ℚ := 500000
  avm_max_radius : ℚ := 1
  avm_days_old : Int := 365
  avm_comp_count : Int := 10
  max_api_calls : Int := 50
deriving DecidableEq, Repr

/-- Argument record of a RentcastClient.get_sold_properties call. -/
structure SoldQuery where
  latitude : ℚ
  longitude : ℚ
  radius : ℚ
  sale_date_range_days : Int
  bedrooms_min : ℚ
  bedrooms_max : ℚ
  bathrooms_min : ℚ
  bathrooms_max : ℚ
  sqft_min : Int
  sqft_max : Int
  property_type : String
  limit : Int
deriving DecidableEq, Repr

/-- Argument record of a RentcastClient.get_sale_listings call. -/
structure ListingQuery where
  zip_code : String
  property_type : Option String
  min_price : Option ℚ
  max_price : Option ℚ
  min_sqft : Option Int
  max_sqft : Option Int
  status : String
  limit : Int
deriving DecidableEq, Repr

/-- The query parameters get_sold_properties assembles for the /properties
endpoint (rentcast_client.py lines 250 to 284); range strings use the
"min:max" shape with "*" for an absent bound. -/
structure SoldRequestParams where
  latitude : ℚ
  longitude : ℚ
  radius : ℚ
  saleDateRange : String
  bedrooms : Option String
  bathrooms : Option String
  squareFootage : Option String
  propertyType : Option String
  limit : Int
deriving DecidableEq, Repr

/-- Range string "min:max" built from two optional rational bounds, each
rendered through Python str(int(x)). -/
def qRangeParam (mn mx : Option ℚ) : Option String :=
  if mn = none ∧ mx = none then none
  else some ((match mn with | some v => toString (pyInt v) | none => "*") ++ ":"
      ++ (match mx with | some v => toString (pyInt v) | none => "*"))

/-- Range string "min:max" built from two optional integer bounds. -/
def iRangeParam (mn mx : Option Int) : Option String :=
  if mn = none ∧ mx = none then none
  else some ((match mn with | some v => toString v | none => "*") ++ ":"
      ++ (match mx with | some v => toString v | none => "*"))

/-- Parameter assembly of RentcastClient.get_sold_properties: every bound is
present at the call site in _analyze_property, so the ranges come out as
concrete "min:max" strings. -/
def sold_request_params (q : SoldQuery) : SoldRequestParams :=
  { latitude := q.latitude
    longitude := q.longitude
    radius := q.radius
    saleDateRange := "*:" ++ toString q.sale_date_range_days
    bedrooms := qRangeParam (some q.bedrooms_min) (some q.bedrooms_max)
    bathrooms := qRangeParam (some q.bathrooms_min) (some q.bathrooms_max)
    squareFootage := iRangeParam (some q.sqft_min) (some q.sqft_max)
    propertyType := some q.property_type
    limit := q.limit }

/-- The model of the Rentcast client seen by the report generator: each
method is a function from the assembled query to either a raised
RentcastAPIError or the returned list. -/
structure ClientModel where
  sale_listings : ListingQuery → Except RentcastAPIError (List Listing)
  sold_properties : SoldQuery → Except RentcastAPIError (List SoldProperty)

/-- ReportGenerator._calculate_costs: build-up cost first, then financing
from offer plus build-up, then the sum. -/
def calculate_costs (cfg : ReportConfig) (best_offer_price : ℚ) (square_footage : Int) :
    ℚ × ℚ × ℚ :=
  let build_up_cost := cfg.build_up_cost_per_sqft * square_footage
  let financing_cost := cfg.financing_rate * (best_offer_price + build_up_cost)
  let all_inclusive_cost := best_offer_price + build_up_cost + financing_cost
  (build_up_cost, financing_cost, all_inclusive_cost)

/-- ReportGenerator._format_comparable_addresses restricted to the comp
dictionaries it is applied to: at most five entries, falling back to
"Unknown" for an empty address, appending the formatted price when the
price is truthy. -/
def format_comparable_addresses (comparables : List FilteredComp) : List String :=
  (comparables.take 5).map fun comp =>
    let addr := if comp.formattedAddress ≠ "" then comp.formattedAddress else "Unknown"
    if comp.price ≠ 0 then addr ++ " ($" ++ formatDollars comp.price ++ ")" else addr

/-- The keep condition of the comparable filter
(report_generator.py line 173): the sale price read with default 0 must be
truthy, at least 1.5 times the subject list price, and at most the
configured ceiling. -/
def comp_keep (cfg : ReportConfig) (subject_list_price : ℚ) (prop : SoldProperty) : Bool :=
  let sale_price := prop.lastSalePrice.getD 0
  sale_price ≠ 0 ∧ sale_price ≥ subject_list_price * (3/2)
    ∧ sale_price ≤ cfg.comp_price_threshold

/-- The comp dictionary built for a surviving sold property. -/
def mk_filtered_comp (prop : SoldProperty) : FilteredComp :=
  { formattedAddress :=
      match prop.formattedAddress with
      | some a => if a ≠ "" then a else prop.addressLine1.getD ""
      | none => prop.addressLine1.getD ""
    price := prop.lastSalePrice.getD 0
    squareFootage := prop.squareFootage.getD 0
    bedrooms := prop.bedrooms
    bathrooms := prop.bathrooms
    lastSaleDate := prop.lastSaleDate.getD "" }

/-- ReportGenerator._filter_and_analyze_comps: filter by the price band,
return (0, 0, empty) when nothing survives, otherwise sort ascending by
price and return the first and last prices with the sorted list. The
subject_sqft argument is accepted but unused, as in the source. -/
def filter_and_analyze_comps (cfg : ReportConfig) (sold_properties : List SoldProperty)
    (subject_list_price : ℚ) (_subject_sqft : Int) : ℚ × ℚ × List FilteredComp :=
  let filtered_comps :=
    (sold_properties.filter (comp_keep cfg subject_list_price)).map mk_filtered_comp
  if filtered_comps = [] then (0, 0, [])
  else
    let sorted := filtered_comps.mergeSort (fun a b => decide (a.price ≤ b.price))
    ((sorted.headD default).price, (sorted.getLastD default).price, sorted)

/-- The PropertyAnalysis record as first constructed in _analyze_property,
before any comp fetching: defaulted subject attributes, everything else at
the dataclass defaults. -/
def analysis_base (listing : Listing) : PropertyAnalysis :=
  { address := listing.formattedAddress.getD ""
    zip_code := listing.zipCode.getD ""
    list_price := listing.price.getD 0
    square_footage := iOrDefault listing.squareFootage 1000
    property_type := listing.propertyType.getD "Single Family"
    bedrooms := some (qOrDefault listing.bedrooms 3)
    bathrooms := some (qOrDefault listing.bathrooms 2) }

/-- The property type parameter passed to the sold-properties search:
the pipe-joined configured types when a nonempty list was provided,
otherwise the subject property type. -/
def sold_property_type_param (listing : Listing) (property_types : Option (List String)) :
    String :=
  match property_types with
  | some (t :: ts) => String.intercalate "|" (t :: ts)
  | _ => listing.propertyType.getD "Single Family"

/-- The get_sold_properties argument record assembled in _analyze_property:
fixed offsets on square footage, bedrooms capped at 5, bathrooms capped
at 4, radius, age and limit from configuration. -/
def sold_query (cfg : ReportConfig) (listing : Listing)
    (property_types : Option (List String)) : SoldQuery :=
  let square_footage := iOrDefault listing.squareFootage 1000
  let bedrooms := qOrDefault listing.bedrooms 3
  let bathrooms := qOrDefault listing.bathrooms 2
  { latitude := listing.latitude.getD 0
    longitude := listing.longitude.getD 0
    radius := cfg.avm_max_radius
    sale_date_range_days := cfg.avm_days_old
    bedrooms_min := bedrooms
    bedrooms_max := 5
    bathrooms_min := bathrooms
    bathrooms_max := 4
    sqft_min := square_footage - 200
    sqft_max := square_footage + 400
    property_type := sold_property_type_param listing property_types
    limit := cfg.avm_comp_count }

/-- ReportGenerator._analyze_property: coordinate check, sold-comp fetch,
filter, cost and upside computation; every failure path stores an error
message on the otherwise default record and returns it. -/
def analyze_property (cfg : ReportConfig)
    (sold_client : SoldQuery → Except RentcastAPIError (List SoldProperty))
    (listing : Listing) (property_types : Option (List String)) : PropertyAnalysis :=
  let list_price := listing.price.getD 0
  let square_footage := iOrDefault listing.squareFootage 1000
  let analysis := analysis_base listing
  if qTruthy listing.latitude = false ∨ qTruthy listing.longitude = false then
    { analysis with error_message := some "No coordinates available for property" }
  else
    match sold_client (sold_query cfg listing property_types) with
    | Except.error e => { analysis with error_message := some e.msg }
    | Except.ok sold_properties =>
      if sold_properties = [] then
        { analysis with error_message := some "No comparable sold properties found" }
      else
        let fac := filter_and_analyze_comps cfg sold_properties list_price square_footage
        let max_comp_price := fac.2.1
        let filtered_comps := fac.2.2
        if filtered_comps = [] then
          { analysis with error_message := some "No valid comparable properties after filtering" }
        else
          let best_offer_price := list_price
          let costs := calculate_costs cfg best_offer_price square_footage
          let max_upside_profit := max_comp_price - costs.2.2
          { analysis with
            best_offer_price := best_offer_price
            best_offer_comparables := format_comparable_addresses filtered_comps
            build_up_cost := costs.1
            financing_cost := costs.2.1
            all_inclusive_cost := costs.2.2
            upside_value := max_comp_price
            upside_comparables := format_comparable_addresses filtered_comps
            upside_profit := max_upside_profit
            decision := if max_upside_profit > cfg.upside_threshold then "Yes" else "No" }

/-- Normalisation at the top of generate_report: a missing or empty
property type list is replaced by the placeholder, which downstream code
treats as no filter; the stored per-listing value is then None. -/
def normalized_types (property_types : Option (List String)) : Option (List String) :=
  match property_types with
  | some (t :: ts) => some (t :: ts)
  | _ => none

/-- The property type value sent with each listing search: the comma join
of the configured types with falsy entries removed, or absent when no
types were configured. -/
def sale_listings_param (pts : Option (List String)) : Option String :=
  match pts with
  | some ts => some (String.intercalate "," (ts.filter (fun s => s ≠ "")))
  | none => none

/-- The get_sale_listings argument record built for one zip code. -/
def listing_query (zc : ZipCodeConfig) (property_type_param : Option String)
    (status : String) (limit : Int) : ListingQuery :=
  { zip_code := zc.zip_code
    property_type := property_type_param
    min_price := zc.min_price
    max_price := zc.max_price
    min_sqft := zc.min_sqft
    max_sqft := zc.max_sqft
    status := status
    limit := limit }

/-- Stable ascending sort of the fetched listings by price, default 0
(report_generator.py line 399). -/
def sorted_by_price (ls : List Listing) : List Listing :=
  ls.mergeSort (fun a b => decide (a.price.getD 0 ≤ b.price.getD 0))

/-- Insertion into the distinct_zip_codes set, modelled as a duplicate-free
list keeping first occurrences. -/
def set_insert (acc : List String) (z : String) : List String :=
  if z ∈ acc then acc else acc ++ [z]

/-- One Phase 1 iteration: record the zip code as seen, then either append
the price-sorted listings of the zip paired with its configuration, or, on
a RentcastAPIError, drop that zip and keep going. -/
def phase1_step (client : ClientModel) (pt_param : Option String) (status : String)
    (limit : Int) (acc : List (Listing × ZipCodeConfig) × List String)
    (zc : ZipCodeConfig) : List (Listing × ZipCodeConfig) × List String :=
  let distinct := set_insert acc.2 zc.zip_code
  match client.sale_listings (listing_query zc pt_param status limit) with
  | Except.ok listings =>
    (acc.1 ++ (sorted_by_price listings).map (fun l => (l, zc)), distinct)
  | Except.error _ => (acc.1, distinct)

/-- Phase 1 of generate_report: fetch the listings of every configured zip,
collecting the listing pool and the set of distinct zip codes. -/
def phase1 (client : ClientModel) (zip_codes : List ZipCodeConfig)
    (pt_param : Option String) (status : String) (limit : Int) :
    List (Listing × ZipCodeConfig) × List String :=
  zip_codes.foldl (phase1_step client pt_param status limit) ([], [])

/-- The listing pool assembled by Phase 1. -/
def planned_listings (client : ClientModel) (zip_codes : List ZipCodeConfig)
    (property_types : Option (List String)) (status : String) (limit : Int) :
    List (Listing × ZipCodeConfig) :=
  (phase1 client zip_codes (sale_listings_param (normalized_types property_types))
    status limit).1

/-- The distinct zip codes recorded by Phase 1. -/
def distinct_zips (client : ClientModel) (zip_codes : List ZipCodeConfig)
    (property_types : Option (List String)) (status : String) (limit : Int) :
    List String :=
  (phase1 client zip_codes (sale_listings_param (normalized_types property_types))
    status limit).2

/-- The API call estimate of Phase 2: one call per distinct zip code plus
one sold-comparables call per collected listing. -/
def estimated_api_calls (client : ClientModel) (zip_codes : List ZipCodeConfig)
    (property_types : Option (List String)) (status : String) (limit : Int) : Nat :=
  (distinct_zips client zip_codes property_types status limit).length
    + (planned_listings client zip_codes property_types status limit).length

/-- The stable descending sort by upside profit applied to the finished
analyses (report_generator.py line 448). -/
def final_sort (analyses : List PropertyAnalysis) : List PropertyAnalysis :=
  analyses.mergeSort (fun a b => decide (b.upside_profit ≤ a.upside_profit))

/-- The analyses of Phase 3 in processing order: one analyze_property call
per collected listing. -/
def planned_analyses (cfg : ReportConfig) (client : ClientModel)
    (zip_codes : List ZipCodeConfig) (property_types : Option (List String))
    (status : String) (limit : Int) : List PropertyAnalysis :=
  (planned_listings client zip_codes property_types status limit).map
    (fun x => analyze_property cfg client.sold_properties x.1
      (normalized_types property_types))

/-- ReportGenerator.generate_report: Phase 1 fetch, Phase 2 budget check
raising SystemExit (modelled as Except.error) when the estimate strictly
exceeds the ceiling, Phase 3 per-listing analysis, final stable sort by
upside profit descending. -/
def generate_report (cfg : ReportConfig) (client : ClientModel)
    (zip_codes : List ZipCodeConfig) (property_types : Option (List String))
    (status : String) (limit : Int) : Except String (List PropertyAnalysis) :=
  let total_api_calls := estimated_api_calls client zip_codes property_types status limit
  if (total_api_calls : Int) > cfg.max_api_calls then
    Except.error ("API call limit exceeded: " ++ toString total_api_calls ++ " > "
      ++ toString cfg.max_api_calls ++ ". Adjust filters to reduce listings count.")
  else
    Except.ok (final_sort (planned_analyses cfg client zip_codes property_types status limit))

/-! ### Concrete inputs used by witnesses and counterexamples -/

/-- The default ReportGenerator configuration. -/
def cfg0 : ReportConfig := {}

/-- A complete listing with coordinates. -/
def listing0 : Listing :=
  { formattedAddress := some "100 Main St", zipCode := some "22102",
    price := some 200000, squareFootage := some 1000,
    propertyType := some "Single Family", bedrooms := some 3, bathrooms := some 2,
    latitude := some 40, longitude := some (-75) }

/-- A listing with a missing latitude. -/
def listingNoCoords : Listing :=
  { formattedAddress := some "200 Oak Ave", zipCode := some "22102",
    price := some 150000, squareFootage := some 900,
    propertyType := some "Single Family", bedrooms := some 3, bathrooms := some 2,
    latitude := none, longitude := some (-75) }

/-- A listing whose latitude is present but equal to 0. -/
def listingZeroLat : Listing :=
  { formattedAddress := some "300 Elm St", zipCode := some "22102",
    price := some 150000, squareFootage := some 900,
    propertyType := some "Single Family", bedrooms := some 3, bathrooms := some 2,
    latitude := some 0, longitude := some (-75) }

/-- A listing with zero square footage and missing bedroom, bathroom and
property type fields. -/
def listingDefaults : Listing :=
  { formattedAddress := some "400 Pine Rd", zipCode := some "22102",
    price := some 180000, squareFootage := some 0,
    latitude := some 39, longitude := some (-76) }

/-- A sold comparable above the 1.5x band floor for listing0. -/
def comp0 : SoldProperty :=
  { formattedAddress := some "101 Main St", lastSalePrice := some 360000,
    squareFootage := some 1100, bedrooms := some 3, bathrooms := some 2,
    lastSaleDate := some "2024-06-01" }

/-- A second, cheaper sold comparable inside the band for listing0. -/
def comp1 : SoldProperty :=
  { formattedAddress := some "102 Main St", lastSalePrice := some 310000,
    squareFootage := some 1050, bedrooms := some 4, bathrooms := some 2,
    lastSaleDate := some "2024-05-01" }

/-- A sold record whose sale price key is present but holds 0. -/
def soldZero : SoldProperty := { lastSalePrice := some 0 }

/-- A sold-properties client that always answers with one comparable. -/
def client0 : SoldQuery → Except RentcastAPIError (List SoldProperty) :=
  fun _ => Except.ok [comp0]

/-- A sold-properties client that always raises. -/
def clientErr : SoldQuery → Except RentcastAPIError (List SoldProperty) :=
  fun _ => Except.error ⟨"API request failed: 500 - Response: rate limited"⟩

/-- A full client model answering both endpoints. -/
def clientM : ClientModel :=
  { sale_listings := fun _ => Except.ok [listing0]
    sold_properties := client0 }

/-- A single configured zip code. -/
def zc0 : ZipCodeConfig := { zip_code := "22102" }

/-! ### General list helpers -/

/-- The last element with fallback of a nonempty list is a member. -/
theorem getLastD_mem_self {α : Type _} (l : List α) (d : α) (h : l ≠ []) :
    l.getLastD d ∈ l := by
  induction l generalizing d with
  | nil => exact absurd rfl h
  | cons x xs ih =>
    rw [List.getLastD_cons]
    cases xs with
    | nil => simp
    | cons y ys => exact List.mem_cons_of_mem x (ih x (by simp))

/-- In a list sorted ascending by price, every element is bounded by the
last element. -/
theorem price_le_getLastD {l : List FilteredComp}
    (hs : l.Pairwise (fun a b => a.price ≤ b.price)) :
    ∀ (d : FilteredComp), ∀ c ∈ l, c.price ≤ (l.getLastD d).price := by
  induction hs with
  | nil => simp
  | @cons x xs hx hxs ih =>
    intro d c hc
    rw [List.getLastD_cons]
    cases xs with
    | nil =>
      simp only [List.mem_singleton] at hc
      subst hc
      simp
    | cons y ys =>
      rcases List.mem_cons.mp hc with rfl | hmem
      · exact hx _ (getLastD_mem_self (y :: ys) c (by simp))
      · exact ih x c hmem

/-- In a list sorted ascending by price, the head bounds every element
from below. -/
theorem headD_price_le {l : List FilteredComp}
    (hs : l.Pairwise (fun a b => a.price ≤ b.price)) :
    ∀ (d : FilteredComp), ∀ c ∈ l, (l.headD d).price ≤ c.price := by
  cases l with
  | nil => simp
  | cons x xs =>
    intro d c hc
    rcases List.mem_cons.mp hc with rfl | hmem
    · simp
    · exact List.rel_of_pairwise_cons hs hmem

/-- The ascending mergeSort by comp price is pairwise sorted. -/
theorem sorted_price_mergeSort (l : List FilteredComp) :
    (l.mergeSort (fun a b => decide (a.price ≤ b.price))).Pairwise
      (fun a b => a.price ≤ b.price) := by
  have h := @List.sorted_mergeSort FilteredComp (fun a b => decide (a.price ≤ b.price))
    (fun a b c hab hbc =>
      decide_eq_true (le_trans (of_decide_eq_true hab) (of_decide_eq_true hbc)))
    (fun a b => by
      rcases le_total a.price b.price with h | h <;> simp [h]) l
  exact h.imp (fun hab => of_decide_eq_true hab)

/-- The descending mergeSort by upside profit is pairwise sorted. -/
theorem sorted_profit_final_sort (l : List PropertyAnalysis) :
    (final_sort l).Pairwise (fun a b => b.upside_profit ≤ a.upside_profit) := by
  have h := @List.sorted_mergeSort PropertyAnalysis
    (fun a b => decide (b.upside_profit ≤ a.upside_profit))
    (fun a b c hab hbc =>
      decide_eq_true (le_trans (of_decide_eq_true hbc) (of_decide_eq_true hab)))
    (fun a b => by
      rcases le_total a.upside_profit b.upside_profit with h | h <;> simp [h]) l
  exact h.imp (fun hab => of_decide_eq_true hab)

/-- The final sort only permutes the analyses. -/
theorem final_sort_perm (l : List PropertyAnalysis) : (final_sort l).Perm l :=
  List.mergeSort_perm l _

/-- Stability of the final sort: the records carrying any fixed upside
profit appear in the output in exactly their input order. -/
theorem final_sort_filter_eq (l : List PropertyAnalysis) (q : ℚ) :
    (final_sort l).filter (fun a => decide (a.upside_profit = q))
      = l.filter (fun a => decide (a.upside_profit = q)) := by
  have htrans : ∀ a b c : PropertyAnalysis,
      (fun x y : PropertyAnalysis => decide (y.upside_profit ≤ x.upside_profit)) a b = true →
      (fun x y : PropertyAnalysis => decide (y.upside_profit ≤ x.upside_profit)) b c = true →
      (fun x y : PropertyAnalysis => decide (y.upside_profit ≤ x.upside_profit)) a c = true :=
    fun a b c hab hbc =>
      decide_eq_true (le_trans (of_decide_eq_true hbc) (of_decide_eq_true hab))
  have htotal : ∀ a b : PropertyAnalysis,
      ((fun x y : PropertyAnalysis => decide (y.upside_profit ≤ x.upside_profit)) a b
        || (fun x y : PropertyAnalysis => decide (y.upside_profit ≤ x.upside_profit)) b a) = true := by
    intro a b
    rcases le_total a.upside_profit b.upside_profit with h | h <;> simp [h]
  have hmemq : ∀ x ∈ l.filter (fun a => decide (a.upside_profit = q)), x.upside_profit = q :=
    fun x hx => of_decide_eq_true (List.mem_filter.mp hx).2
  have hpair : (l.filter (fun a => decide (a.upside_profit = q))).Pairwise
      (fun a b => decide (b.upside_profit ≤ a.upside_profit) = true) := by
    apply List.pairwise_of_forall_mem_list
    intro a ha b hb
    rw [hmemq a ha, hmemq b hb]
    simp
  have hsub : (l.filter (fun a => decide (a.upside_profit = q))).Sublist (final_sort l) :=
    List.sublist_mergeSort htrans htotal hpair (List.filter_sublist l)
  have hsub2 : (l.filter (fun a => decide (a.upside_profit = q))).Sublist
      ((final_sort l).filter (fun a => decide (a.upside_profit = q))) := by
    have := hsub.filter (fun a => decide (a.upside_profit = q))
    have hidem : List.filter
          (fun a => decide (a.upside_profit = q) && decide (a.upside_profit = q)) l
        = List.filter (fun a => decide (a.upside_profit = q)) l :=
      List.filter_congr (fun a _ => Bool.and_self _)
    rwa [List.filter_filter, hidem] at this
  have hlen : ((final_sort l).filter (fun a => decide (a.upside_profit = q))).length
      = (l.filter (fun a => decide (a.upside_profit = q))).length :=
    ((final_sort_perm l).filter _).length_eq
  exact (hsub2.eq_of_length hlen.symm).symm

/-! ### Facts about the comparable filter -/

/-- The surviving comparables are exactly the sold records passing the keep
condition, mapped to comp dictionaries, up to the ascending reordering. -/
theorem fac_out_perm (cfg : ReportConfig) (sold : List SoldProperty) (lp : ℚ) (sq : Int) :
    ((filter_and_analyze_comps cfg sold lp sq).2.2).Perm
      ((sold.filter (comp_keep cfg lp)).map mk_filtered_comp) := by
  simp only [filter_and_analyze_comps]
  by_cases h : ((sold.filter (comp_keep cfg lp)).map mk_filtered_comp) = []
  · rw [if_pos h]
    rw [h]
  · rw [if_neg h]
    exact List.mergeSort_perm _ _

/-- The filter output is sorted ascending by price. -/
theorem fac_sorted (cfg : ReportConfig) (sold : List SoldProperty) (lp : ℚ) (sq : Int) :
    ((filter_and_analyze_comps cfg sold lp sq).2.2).Pairwise
      (fun a b => a.price ≤ b.price) := by
  simp only [filter_and_analyze_comps]
  by_cases h : ((sold.filter (comp_keep cfg lp)).map mk_filtered_comp) = []
  · rw [if_pos h]
    exact List.Pairwise.nil
  · rw [if_neg h]
    exact sorted_price_mergeSort _

/-- When survivors exist, the two returned anchor prices are the head and
last prices of the sorted survivor list. -/
theorem fac_anchors (cfg : ReportConfig) (sold : List SoldProperty) (lp : ℚ) (sq : Int)
    (h : (filter_and_analyze_comps cfg sold lp sq).2.2 ≠ []) :
    (filter_and_analyze_comps cfg sold lp sq).1
      = (((filter_and_analyze_comps cfg sold lp sq).2.2).headD default).price ∧
    (filter_and_analyze_comps cfg sold lp sq).2.1
      = (((filter_and_analyze_comps cfg sold lp sq).2.2).getLastD default).price := by
  simp only [filter_and_analyze_comps] at h ⊢
  by_cases hemp : ((sold.filter (comp_keep cfg lp)).map mk_filtered_comp) = []
  · rw [if_pos hemp] at h
    simp at h
  · rw [if_neg hemp] at h ⊢
    exact ⟨rfl, rfl⟩

/-- When survivors exist, the second anchor is the maximum survivor price. -/
theorem fac_max_spec (cfg : ReportConfig) (sold : List SoldProperty) (lp : ℚ) (sq : Int)
    (h : (filter_and_analyze_comps cfg sold lp sq).2.2 ≠ []) :
    (filter_and_analyze_comps cfg sold lp sq).2.1
        ∈ ((filter_and_analyze_comps cfg sold lp sq).2.2).map FilteredComp.price ∧
    ∀ p ∈ ((filter_and_analyze_comps cfg sold lp sq).2.2).map FilteredComp.price,
      p ≤ (filter_and_analyze_comps cfg sold lp sq).2.1 := by
  obtain ⟨hmin, hmax⟩ := fac_anchors cfg sold lp sq h
  constructor
  · rw [hmax]
    exact List.mem_map_of_mem _ (getLastD_mem_self _ _ h)
  · intro p hp
    obtain ⟨c, hc, rfl⟩ := List.mem_map.mp hp
    rw [hmax]
    exact price_le_getLastD (fac_sorted cfg sold lp sq) default c hc

/-- When survivors exist, the first anchor is the minimum survivor price. -/
theorem fac_min_spec (cfg : ReportConfig) (sold : List SoldProperty) (lp : ℚ) (sq : Int)
    (h : (filter_and_analyze_comps cfg sold lp sq).2.2 ≠ []) :
    (filter_and_analyze_comps cfg sold lp sq).1
        ∈ ((filter_and_analyze_comps cfg sold lp sq).2.2).map FilteredComp.price ∧
    ∀ p ∈ ((filter_and_analyze_comps cfg sold lp sq).2.2).map FilteredComp.price,
      (filter_and_analyze_comps cfg sold lp sq).1 ≤ p := by
  obtain ⟨hmin, hmax⟩ := fac_anchors cfg sold lp sq h
  constructor
  · rw [hmin]
    apply List.mem_map_of_mem
    cases hout : (filter_and_analyze_comps cfg sold lp sq).2.2 with
    | nil => exact absurd hout h
    | cons x xs => simp
  · intro p hp
    obtain ⟨c, hc, rfl⟩ := List.mem_map.mp hp
    rw [hmin]
    exact headD_price_le (fac_sorted cfg sold lp sq) default c hc

/-- Every surviving comp price lies in the configured band. -/
theorem fac_band (cfg : ReportConfig) (sold : List SoldProperty) (lp : ℚ) (sq : Int) :
    ∀ c ∈ (filter_and_analyze_comps cfg sold lp sq).2.2,
      lp * (3/2) ≤ c.price ∧ c.price ≤ cfg.comp_price_threshold := by
  intro c hc
  have hc2 := (fac_out_perm cfg sold lp sq).mem_iff.mp hc
  obtain ⟨p, hp, rfl⟩ := List.mem_map.mp hc2
  have hk := of_decide_eq_true (List.mem_filter.mp hp).2
  obtain ⟨-, hge, hle⟩ := hk
  exact ⟨hge, hle⟩

/-! ### Facts about Phase 1 -/

/-- Membership in the running distinct-zip set. -/
theorem foldl_set_insert_mem (zs : List String) (acc : List String) (z : String) :
    z ∈ zs.foldl set_insert acc ↔ z ∈ acc ∨ z ∈ zs := by
  induction zs generalizing acc with
  | nil => simp
  | cons y ys ih =>
    rw [List.foldl_cons, ih]
    unfold set_insert
    by_cases hy : y ∈ acc
    · rw [if_pos hy]
      simp only [List.mem_cons]
      constructor
      · rintro (h | h)
        · exact Or.inl h
        · exact Or.inr (Or.inr h)
      · rintro (h | rfl | h)
        · exact Or.inl h
        · exact Or.inl hy
        · exact Or.inr h
    · rw [if_neg hy]
      simp only [List.mem_append, List.mem_singleton, List.mem_cons]
      tauto

/-- The running distinct-zip set stays duplicate free. -/
theorem foldl_set_insert_nodup (zs : List String) (acc : List String) (h : acc.Nodup) :
    (zs.foldl set_insert acc).Nodup := by
  induction zs generalizing acc with
  | nil => exact h
  | cons y ys ih =>
    rw [List.foldl_cons]
    apply ih
    unfold set_insert
    by_cases hy : y ∈ acc
    · rwa [if_pos hy]
    · rw [if_neg hy]
      simp [List.nodup_append, h, hy]

/-- Unrolling of the Phase 1 fold: the pool is the concatenation of the
per-zip sorted fetches, failed zips contributing nothing, and the distinct
set is the insertion fold over the configured zip codes. -/
theorem phase1_foldl_eq (client : ClientModel) (pt : Option String) (st : String)
    (lim : Int) (zcs : List ZipCodeConfig)
    (acc : List (Listing × ZipCodeConfig) × List String) :
    zcs.foldl (phase1_step client pt st lim) acc =
      (acc.1 ++ zcs.flatMap (fun zc =>
          match client.sale_listings (listing_query zc pt st lim) with
          | Except.ok ls => (sorted_by_price ls).map (fun l => (l, zc))
          | Except.error _ => []),
        (zcs.map ZipCodeConfig.zip_code).foldl set_insert acc.2) := by
  induction zcs generalizing acc with
  | nil => simp
  | cons zc zcs ih =>
    rw [List.foldl_cons, ih, List.map_cons, List.foldl_cons, List.flatMap_cons]
    unfold phase1_step
    cases hc : client.sale_listings (listing_query zc pt st lim) <;>
      simp [List.append_assoc]

/-- The Phase 1 pool written as a flat map over the configured zips. -/
theorem planned_listings_eq (client : ClientModel) (zcs : List ZipCodeConfig)
    (pts : Option (List String)) (st : String) (lim : Int) :
    planned_listings client zcs pts st lim = zcs.flatMap (fun zc =>
      match client.sale_listings
          (listing_query zc (sale_listings_param (normalized_types pts)) st lim) with
      | Except.ok ls => (sorted_by_price ls).map (fun l => (l, zc))
      | Except.error _ => []) := by
  unfold planned_listings phase1
  rw [phase1_foldl_eq]
  simp

/-- The Phase 1 distinct set written as the insertion fold. -/
theorem distinct_zips_eq (client : ClientModel) (zcs : List ZipCodeConfig)
    (pts : Option (List String)) (st : String) (lim : Int) :
    distinct_zips client zcs pts st lim
      = (zcs.map ZipCodeConfig.zip_code).foldl set_insert [] := by
  unfold distinct_zips phase1
  rw [phase1_foldl_eq]

/-! ### Case analysis of _analyze_property -/

/-- A scored analysis (no error message) pins down the full control path:
coordinates were truthy, the client answered with a nonempty sold list and
the filter kept at least one comp. -/
theorem analyze_none_cases (cfg : ReportConfig)
    (client : SoldQuery → Except RentcastAPIError (List SoldProperty))
    (listing : Listing) (pts : Option (List String))
    (h : (analyze_property cfg client listing pts).error_message = none) :
    ¬ (qTruthy listing.latitude = false ∨ qTruthy listing.longitude = false) ∧
    ∃ sold, client (sold_query cfg listing pts) = Except.ok sold ∧
      sold ≠ [] ∧
      (filter_and_analyze_comps cfg sold (listing.price.getD 0)
        (iOrDefault listing.squareFootage 1000)).2.2 ≠ [] := by
  by_cases hco : qTruthy listing.latitude = false ∨ qTruthy listing.longitude = false
  · simp [analyze_property, hco] at h
  · refine ⟨hco, ?_⟩
    cases hc : client (sold_query cfg listing pts) with
    | error e => simp [analyze_property, hco, hc] at h
    | ok sold =>
      by_cases hemp : sold = []
      · simp [analyze_property, hco, hc, hemp] at h
      · by_cases hfc : (filter_and_analyze_comps cfg sold (listing.price.getD 0)
            (iOrDefault listing.squareFootage 1000)).2.2 = []
        · simp [analyze_property, hco, hc, hemp, hfc] at h
        · exact ⟨sold, rfl, hemp, hfc⟩

/-- Value of _analyze_property on the fully successful path. -/
theorem analyze_scored_eq (cfg : ReportConfig)
    (client : SoldQuery → Except RentcastAPIError (List SoldProperty))
    (listing : Listing) (pts : Option (List String)) (sold : List SoldProperty)
    (hco : ¬ (qTruthy listing.latitude = false ∨ qTruthy listing.longitude = false))
    (hc : client (sold_query cfg listing pts) = Except.ok sold)
    (hemp : sold ≠ [])
    (hfc : (filter_and_analyze_comps cfg sold (listing.price.getD 0)
        (iOrDefault listing.squareFootage 1000)).2.2 ≠ []) :
    analyze_property cfg client listing pts =
      { analysis_base listing with
        best_offer_price := listing.price.getD 0
        best_offer_comparables := format_comparable_addresses
          (filter_and_analyze_comps cfg sold (listing.price.getD 0)
            (iOrDefault listing.squareFootage 1000)).2.2
        build_up_cost := (calculate_costs cfg (listing.price.getD 0)
          (iOrDefault listing.squareFootage 1000)).1
        financing_cost := (calculate_costs cfg (listing.price.getD 0)
          (iOrDefault listing.squareFootage 1000)).2.1
        all_inclusive_cost := (calculate_costs cfg (listing.price.getD 0)
          (iOrDefault listing.squareFootage 1000)).2.2
        upside_value := (filter_and_analyze_comps cfg sold (listing.price.getD 0)
          (iOrDefault listing.squareFootage 1000)).2.1
        upside_comparables := format_comparable_addresses
          (filter_and_analyze_comps cfg sold (listing.price.getD 0)
            (iOrDefault listing.squareFootage 1000)).2.2
        upside_profit := (filter_and_analyze_comps cfg sold (listing.price.getD 0)
            (iOrDefault listing.squareFootage 1000)).2.1
          - (calculate_costs cfg (listing.price.getD 0)
              (iOrDefault listing.squareFootage 1000)).2.2
        decision :=
          if (filter_and_analyze_comps cfg sold (listing.price.getD 0)
                (iOrDefault listing.squareFootage 1000)).2.1
              - (calculate_costs cfg (listing.price.getD 0)
                  (iOrDefault listing.squareFootage 1000)).2.2 > cfg.upside_threshold
          then "Yes" else "No" } := by
  simp [analyze_property, hco, hc, hemp, hfc]

/-- On every failure path, _analyze_property returns the base record with
only the error message changed. -/
theorem analyze_errored_eq (cfg : ReportConfig)
    (client : SoldQuery → Except RentcastAPIError (List SoldProperty))
    (listing : Listing) (pts : Option (List String))
    (h : (analyze_property cfg client listing pts).error_message.isSome) :
    analyze_property cfg client listing pts =
      { analysis_base listing with
        error_message := (analyze_property cfg client listing pts).error_message } := by
  by_cases hco : qTruthy listing.latitude = false ∨ qTruthy listing.longitude = false
  · simp [analyze_property, hco]
  · cases hc : client (sold_query cfg listing pts) with
    | error e => simp [analyze_property, hco, hc]
    | ok sold =>
      by_cases hemp : sold = []
      · simp [analyze_property, hco, hc, hemp]
      · by_cases hfc : (filter_and_analyze_comps cfg sold (listing.price.getD 0)
            (iOrDefault listing.squareFootage 1000)).2.2 = []
        · simp [analyze_property, hco, hc, hemp, hfc]
        · exfalso
          rw [analyze_scored_eq cfg client listing pts sold hco hc hemp hfc] at h
          simp [analysis_base] at h

/-- The subject attribute fields of the analysis record never depend on the
outcome: they always carry the defaulted values read from the listing. -/
theorem analyze_subject_fields (cfg : ReportConfig)
    (client : SoldQuery → Except RentcastAPIError (List SoldProperty))
    (listing : Listing) (pts : Option (List String)) :
    (analyze_property cfg client listing pts).square_footage
      = iOrDefault listing.squareFootage 1000 ∧
    (analyze_property cfg client listing pts).bedrooms
      = some (qOrDefault listing.bedrooms 3) ∧
    (analyze_property cfg client listing pts).bathrooms
      = some (qOrDefault listing.bathrooms 2) ∧
    (analyze_property cfg client listing pts).list_price = listing.price.getD 0 := by
  cases hmsg : (analyze_property cfg client listing pts).error_message with
  | some m =>
    rw [analyze_errored_eq cfg client listing pts (by simp [hmsg])]
    simp [analysis_base]
  | none =>
    obtain ⟨hco, sold, hc, hemp, hfc⟩ := analyze_none_cases cfg client listing pts hmsg
    rw [analyze_scored_eq cfg client listing pts sold hco hc hemp hfc]
    simp [analysis_base]

/-- C1: for every listing that reaches the scored state, the decision is
Yes exactly when the upside profit strictly exceeds the configured
threshold, profit equal to the threshold gives No, the upside profit is
the upside value minus the all-inclusive cost, and the upside value is the
maximum surviving comparable price. -/
theorem C1_scored_decision (cfg : ReportConfig)
    (client : SoldQuery → Except RentcastAPIError (List SoldProperty))
    (listing : Listing) (pts : Option (List String))
    (h : (analyze_property cfg client listing pts).error_message = none) :
    ((analyze_property cfg client listing pts).decision = "Yes" ↔
      (analyze_property cfg client listing pts).upside_profit > cfg.upside_threshold) ∧
    ((analyze_property cfg client listing pts).upside_profit = cfg.upside_threshold →
      (analyze_property cfg client listing pts).decision = "No") ∧
    (analyze_property cfg client listing pts).upside_profit
      = (analyze_property cfg client listing pts).upside_value
        - (analyze_property cfg client listing pts).all_inclusive_cost ∧
    ∃ sold, client (sold_query cfg listing pts) = Except.ok sold ∧
      (analyze_property cfg client listing pts).upside_value
        ∈ ((filter_and_analyze_comps cfg sold (listing.price.getD 0)
            (iOrDefault listing.squareFootage 1000)).2.2).map FilteredComp.price ∧
      ∀ p ∈ ((filter_and_analyze_comps cfg sold (listing.price.getD 0)
            (iOrDefault listing.squareFootage 1000)).2.2).map FilteredComp.price,
        p ≤ (analyze_property cfg client listing pts).upside_value := by
  obtain ⟨hco, sold, hc, hemp, hfc⟩ := analyze_none_cases cfg client listing pts h
  have hmax := fac_max_spec cfg sold (listing.price.getD 0)
    (iOrDefault listing.squareFootage 1000) hfc
  rw [analyze_scored_eq cfg client listing pts sold hco hc hemp hfc]
  refine ⟨?_, ?_, rfl, sold, hc, hmax.1, hmax.2⟩
  · by_cases hP : (filter_and_analyze_comps cfg sold (listing.price.getD 0)
          (iOrDefault listing.squareFootage 1000)).2.1
        - (calculate_costs cfg (listing.price.getD 0)
            (iOrDefault listing.squareFootage 1000)).2.2 > cfg.upside_threshold
    · simp [hP]
    · simp [hP]
  · intro heq
    simp only [] at heq
    simp [heq]

/-- C2: the cost calculator returns exactly the build-up cost, the
financing cost computed from offer plus build-up, and their sum, in that
order; it is a pure function of its arguments and the two configured
constants. -/
theorem C2_calculate_costs (cfg : ReportConfig) (offer_price : ℚ) (square_footage : Int) :
    calculate_costs cfg offer_price square_footage =
      (cfg.build_up_cost_per_sqft * square_footage,
       cfg.financing_rate * (offer_price + cfg.build_up_cost_per_sqft * square_footage),
       offer_price + cfg.build_up_cost_per_sqft * square_footage
         + cfg.financing_rate
             * (offer_price + cfg.build_up_cost_per_sqft * square_footage)) := rfl

/-- C5: whenever the analysis carries an error message, every derived
numeric field still holds its zero default and the decision is No. -/
theorem C5_errored_zero_fields (cfg : ReportConfig)
    (client : SoldQuery → Except RentcastAPIError (List SoldProperty))
    (listing : Listing) (pts : Option (List String))
    (h : (analyze_property cfg client listing pts).error_message.isSome) :
    (analyze_property cfg client listing pts).best_offer_price = 0 ∧
    (analyze_property cfg client listing pts).build_up_cost = 0 ∧
    (analyze_property cfg client listing pts).financing_cost = 0 ∧
    (analyze_property cfg client listing pts).all_inclusive_cost = 0 ∧
    (analyze_property cfg client listing pts).upside_value = 0 ∧
    (analyze_property cfg client listing pts).upside_profit = 0 ∧
    (analyze_property cfg client listing pts).decision = "No" := by
  rw [analyze_errored_eq cfg client listing pts h]
  simp [analysis_base]

/-- C9: a missing or zero square footage is replaced by the 1000 default,
missing bedrooms by 3 and missing bathrooms by 2, and the build-up cost
and the sold-comparables query ranges are computed from these defaults. -/
theorem C9_missing_subject_defaults (cfg : ReportConfig)
    (client : SoldQuery → Except RentcastAPIError (List SoldProperty))
    (listing : Listing) (pts : Option (List String))
    (hsq : listing.squareFootage = none ∨ listing.squareFootage = some 0) :
    (analyze_property cfg client listing pts).square_footage = 1000 ∧
    (sold_query cfg listing pts).sqft_min = 800 ∧
    (sold_query cfg listing pts).sqft_max = 1400 ∧
    ((analyze_property cfg client listing pts).error_message = none →
      (analyze_property cfg client listing pts).build_up_cost
        = cfg.build_up_cost_per_sqft * 1000) ∧
    (listing.bedrooms = none →
      (sold_query cfg listing pts).bedrooms_min = 3 ∧
      (analyze_property cfg client listing pts).bedrooms = some 3) ∧
    (listing.bathrooms = none →
      (sold_query cfg listing pts).bathrooms_min = 2 ∧
      (analyze_property cfg client listing pts).bathrooms = some 2) := by
  have hio : iOrDefault listing.squareFootage 1000 = 1000 := by
    rcases hsq with h | h <;> simp [iOrDefault, h]
  obtain ⟨hsqf, hbed, hbath, -⟩ := analyze_subject_fields cfg client listing pts
  refine ⟨by rw [hsqf, hio], by simp [sold_query, hio], by simp [sold_query, hio],
    ?_, ?_, ?_⟩
  · intro hnone
    obtain ⟨hco, sold, hc, hemp, hfc⟩ := analyze_none_cases cfg client listing pts hnone
    rw [analyze_scored_eq cfg client listing pts sold hco hc hemp hfc]
    simp [calculate_costs, hio]
  · intro hb
    exact ⟨by simp [sold_query, qOrDefault, hb], by rw [hbed]; simp [qOrDefault, hb]⟩
  · intro hb
    exact ⟨by simp [sold_query, qOrDefault, hb], by rw [hbath]; simp [qOrDefault, hb]⟩

/-- C10: a latitude or longitude that is present but equal to 0 is treated
exactly like a missing coordinate: the analysis carries the
coordinates-missing message, keeps decision No with zero profit, and the
result does not depend on the sold-comparables client at all (no call is
made). -/
theorem C10_zero_coordinate_is_missing (cfg : ReportConfig)
    (client : SoldQuery → Except RentcastAPIError (List SoldProperty))
    (listing : Listing) (pts : Option (List String))
    (h : listing.latitude = some 0 ∨ listing.longitude = some 0) :
    (analyze_property cfg client listing pts).error_message
        = some "No coordinates available for property" ∧
    (analyze_property cfg client listing pts).decision = "No" ∧
    (analyze_property cfg client listing pts).upside_profit = 0 ∧
    (analyze_property cfg client listing pts).upside_value = 0 ∧
    ∀ client2 : SoldQuery → Except RentcastAPIError (List SoldProperty),
      analyze_property cfg client2 listing pts
        = analyze_property cfg client listing pts := by
  have hco : qTruthy listing.latitude = false ∨ qTruthy listing.longitude = false := by
    rcases h with h | h
    · exact Or.inl (by simp [qTruthy, h])
    · exact Or.inr (by simp [qTruthy, h])
  refine ⟨?_, ?_, ?_, ?_, ?_⟩ <;>
    simp [analyze_property, hco, analysis_base]

/-- Rendering of the fixed bedroom cap through str(int(5)). -/
theorem toString_pyInt_five : toString (pyInt 5) = "5" := by decide

/-- Rendering of the fixed bathroom cap through str(int(4)). -/
theorem toString_pyInt_four : toString (pyInt 4) = "4" := by decide

/-- C8: for a listing with coordinates and present, nonzero subject
attributes, the sold-comparables query always carries square footage range
[sqft - 200, sqft + 400], bedroom range [bedrooms, 5] and bathroom range
[bathrooms, 4], whatever the configuration, and the analysis consults the
client only at this query. -/
theorem C8_sold_query_ranges (cfg : ReportConfig) (listing : Listing)
    (pts : Option (List String)) (s : Int) (b ba : ℚ)
    (hcoord : ¬ (qTruthy listing.latitude = false ∨ qTruthy listing.longitude = false))
    (hs : listing.squareFootage = some s) (hs0 : s ≠ 0)
    (hb : listing.bedrooms = some b) (hb0 : b ≠ 0)
    (hba : listing.bathrooms = some ba) (hba0 : ba ≠ 0) :
    (sold_query cfg listing pts).sqft_min = s - 200 ∧
    (sold_query cfg listing pts).sqft_max = s + 400 ∧
    (sold_query cfg listing pts).bedrooms_min = b ∧
    (sold_query cfg listing pts).bedrooms_max = 5 ∧
    (sold_query cfg listing pts).bathrooms_min = ba ∧
    (sold_query cfg listing pts).bathrooms_max = 4 ∧
    (sold_request_params (sold_query cfg listing pts)).squareFootage
      = some (toString (s - 200) ++ ":" ++ toString (s + 400)) ∧
    (sold_request_params (sold_query cfg listing pts)).bedrooms
      = some (toString (pyInt b) ++ ":" ++ "5") ∧
    (sold_request_params (sold_query cfg listing pts)).bathrooms
      = some (toString (pyInt ba) ++ ":" ++ "4") ∧
    ∀ c1 c2 : SoldQuery → Except RentcastAPIError (List SoldProperty),
      c1 (sold_query cfg listing pts) = c2 (sold_query cfg listing pts) →
      analyze_property cfg c1 listing pts = analyze_property cfg c2 listing pts := by
  have hsq : iOrDefault listing.squareFootage 1000 = s := by
    simp [iOrDefault, hs, hs0]
  have hbq : qOrDefault listing.bedrooms 3 = b := by
    simp [qOrDefault, hb, hb0]
  have hbaq : qOrDefault listing.bathrooms 2 = ba := by
    simp [qOrDefault, hba, hba0]
  refine ⟨by simp [sold_query, hsq], by simp [sold_query, hsq],
    by simp [sold_query, hbq], rfl,
    by simp [sold_query, hbaq], rfl,
    ?_, ?_, ?_, ?_⟩
  · simp [sold_request_params, sold_query, iRangeParam, hsq]
  · simp [sold_request_params, sold_query, qRangeParam, hbq, toString_pyInt_five]
  · simp [sold_request_params, sold_query, qRangeParam, hbaq, toString_pyInt_four]
  · intro c1 c2 hcc
    simp only [analyze_property]
    rw [if_neg hcoord, if_neg hcoord, hcc]

/-- The source keep condition coincides with the spec predicate once a
present-but-zero sale price is also excluded. -/
theorem comp_keep_spec (cfg : ReportConfig) (lp : ℚ) (p : SoldProperty) :
    comp_keep cfg lp p = decide (p.lastSalePrice.isSome
      ∧ p.lastSalePrice.getD 0 ≠ 0
      ∧ p.lastSalePrice.getD 0 ≥ lp * (3/2)
      ∧ p.lastSalePrice.getD 0 ≤ cfg.comp_price_threshold) := by
  simp only [comp_keep]
  rw [decide_eq_decide]
  constructor
  · rintro ⟨h0, hge, hle⟩
    refine ⟨?_, h0, hge, hle⟩
    cases hsp : p.lastSalePrice with
    | none => rw [hsp] at h0; simp at h0
    | some v => rfl
  · rintro ⟨-, h0, hge, hle⟩
    exact ⟨h0, hge, hle⟩

/-- C3 (amended): a sold property appears in the filtered output exactly
when its sale price is present, nonzero, at least 1.5 times the subject
list price and at most the configured ceiling; nothing outside the band
appears, the survivors come back sorted ascending by price, and the two
anchors are the minimum and maximum survivor prices. -/
theorem C3_filter_band_sorted (cfg : ReportConfig) (sold : List SoldProperty)
    (lp : ℚ) (sq : Int) :
    (∀ c ∈ (filter_and_analyze_comps cfg sold lp sq).2.2,
      lp * (3/2) ≤ c.price ∧ c.price ≤ cfg.comp_price_threshold) ∧
    ((filter_and_analyze_comps cfg sold lp sq).2.2).Perm
      ((sold.filter (fun p => decide (p.lastSalePrice.isSome
          ∧ p.lastSalePrice.getD 0 ≠ 0
          ∧ p.lastSalePrice.getD 0 ≥ lp * (3/2)
          ∧ p.lastSalePrice.getD 0 ≤ cfg.comp_price_threshold))).map mk_filtered_comp) ∧
    ((filter_and_analyze_comps cfg sold lp sq).2.2).Pairwise
      (fun a b => a.price ≤ b.price) ∧
    ((filter_and_analyze_comps cfg sold lp sq).2.2 ≠ [] →
      (filter_and_analyze_comps cfg sold lp sq).1
          ∈ ((filter_and_analyze_comps cfg sold lp sq).2.2).map FilteredComp.price ∧
      (∀ p ∈ ((filter_and_analyze_comps cfg sold lp sq).2.2).map FilteredComp.price,
        (filter_and_analyze_comps cfg sold lp sq).1 ≤ p) ∧
      (filter_and_analyze_comps cfg sold lp sq).2.1
          ∈ ((filter_and_analyze_comps cfg sold lp sq).2.2).map FilteredComp.price ∧
      (∀ p ∈ ((filter_and_analyze_comps cfg sold lp sq).2.2).map FilteredComp.price,
        p ≤ (filter_and_analyze_comps cfg sold lp sq).2.1)) := by
  refine ⟨fac_band cfg sold lp sq, ?_, fac_sorted cfg sold lp sq, ?_⟩
  · have hfe : sold.filter (fun p => decide (p.lastSalePrice.isSome
          ∧ p.lastSalePrice.getD 0 ≠ 0
          ∧ p.lastSalePrice.getD 0 ≥ lp * (3/2)
          ∧ p.lastSalePrice.getD 0 ≤ cfg.comp_price_threshold))
        = sold.filter (comp_keep cfg lp) :=
      List.filter_congr (fun p _ => (comp_keep_spec cfg lp p).symm)
    rw [hfe]
    exact fac_out_perm cfg sold lp sq
  · intro hne
    obtain ⟨hminm, hminle⟩ := fac_min_spec cfg sold lp sq hne
    obtain ⟨hmaxm, hmaxle⟩ := fac_max_spec cfg sold lp sq hne
    exact ⟨hminm, hminle, hmaxm, hmaxle⟩

/-- C3 counterexample: with subject list price 0, a sold record whose sale
price key is present and holds 0 satisfies every price condition of the
claim as stated, yet the filtered output is empty, so the claimed
membership equivalence fails without the nonzero amendment. -/
theorem C3_counterexample_zero_price :
    soldZero.lastSalePrice.isSome = true ∧
    soldZero.lastSalePrice.getD 0 ≥ (0 : ℚ) * (3/2) ∧
    soldZero.lastSalePrice.getD 0 ≤ cfg0.comp_price_threshold ∧
    (filter_and_analyze_comps cfg0 [soldZero] 0 1000).2.2 = [] := by
  refine ⟨rfl, by norm_num [soldZero], by norm_num [soldZero, cfg0], ?_⟩
  norm_num [filter_and_analyze_comps, comp_keep, soldZero]

/-- C4: the run aborts with a fatal failure and no analysis output exactly
when the estimate, one call per distinct configured zip plus one per
collected listing, strictly exceeds the ceiling; at or below the ceiling
it proceeds to the analysis phase. -/
theorem C4_budget_guard (cfg : ReportConfig) (client : ClientModel)
    (zcs : List ZipCodeConfig) (pts : Option (List String))
    (status : String) (limit : Int) :
    ((estimated_api_calls client zcs pts status limit : Int) > cfg.max_api_calls ↔
      ∃ e, generate_report cfg client zcs pts status limit = Except.error e) ∧
    ((estimated_api_calls client zcs pts status limit : Int) ≤ cfg.max_api_calls →
      generate_report cfg client zcs pts status limit
        = Except.ok (final_sort (planned_analyses cfg client zcs pts status limit))) ∧
    (distinct_zips client zcs pts status limit).Nodup ∧
    (∀ z, z ∈ distinct_zips client zcs pts status limit
      ↔ z ∈ zcs.map ZipCodeConfig.zip_code) ∧
    estimated_api_calls client zcs pts status limit
      = (distinct_zips client zcs pts status limit).length
        + (planned_listings client zcs pts status limit).length := by
  refine ⟨⟨?_, ?_⟩, ?_, ?_, ?_, rfl⟩
  · intro hgt
    refine ⟨"API call limit exceeded: "
        ++ toString (estimated_api_calls client zcs pts status limit) ++ " > "
        ++ toString cfg.max_api_calls ++ ". Adjust filters to reduce listings count.", ?_⟩
    simp only [generate_report]
    rw [if_pos hgt]
  · rintro ⟨e, he⟩
    by_contra hgt
    rw [not_lt] at hgt
    simp only [generate_report] at he
    rw [if_neg (not_lt.mpr hgt)] at he
    exact Except.noConfusion he
  · intro hle
    simp only [generate_report]
    rw [if_neg (not_lt.mpr hle)]
  · rw [distinct_zips_eq]
    exact foldl_set_insert_nodup _ _ List.nodup_nil
  · intro z
    rw [distinct_zips_eq, foldl_set_insert_mem]
    simp

/-- C6: every completed run returns the analyses sorted non-increasing in
upside profit, and records sharing a profit value keep exactly the
relative order in which the listings were processed. -/
theorem C6_sort_descending_stable (cfg : ReportConfig) (client : ClientModel)
    (zcs : List ZipCodeConfig) (pts : Option (List String))
    (status : String) (limit : Int)
    (h : (estimated_api_calls client zcs pts status limit : Int) ≤ cfg.max_api_calls) :
    ∃ out, generate_report cfg client zcs pts status limit = Except.ok out ∧
      out.Pairwise (fun a b => b.upside_profit ≤ a.upside_profit) ∧
      ∀ q : ℚ, out.filter (fun a => decide (a.upside_profit = q))
        = (planned_analyses cfg client zcs pts status limit).filter
            (fun a => decide (a.upside_profit = q)) := by
  refine ⟨final_sort (planned_analyses cfg client zcs pts status limit), ?_,
    sorted_profit_final_sort _, fun q => final_sort_filter_eq _ q⟩
  simp only [generate_report]
  rw [if_neg (not_lt.mpr h)]

/-- C7: once the budget check passes, the run always completes with one
analysis per collected listing, so a failing listing never stops the run;
a provider error on the sold-comparables call of one listing surfaces as
the error message of that listing, and a provider error during the Phase 1
fetch of a zip only drops the listings of that zip. -/
theorem C7_per_listing_failure_isolation (cfg : ReportConfig) (client : ClientModel)
    (zcs : List ZipCodeConfig) (pts : Option (List String))
    (status : String) (limit : Int)
    (h : (estimated_api_calls client zcs pts status limit : Int) ≤ cfg.max_api_calls) :
    ∃ out, generate_report cfg client zcs pts status limit = Except.ok out ∧
      out.Perm (planned_analyses cfg client zcs pts status limit) ∧
      out.length = (planned_listings client zcs pts status limit).length ∧
      planned_listings client zcs pts status limit = zcs.flatMap (fun zc =>
        match client.sale_listings
            (listing_query zc (sale_listings_param (normalized_types pts)) status limit) with
        | Except.ok ls => (sorted_by_price ls).map (fun l => (l, zc))
        | Except.error _ => []) ∧
      ∀ x ∈ planned_listings client zcs pts status limit, ∀ e : RentcastAPIError,
        ¬ (qTruthy x.1.latitude = false ∨ qTruthy x.1.longitude = false) →
        client.sold_properties (sold_query cfg x.1 (normalized_types pts))
          = Except.error e →
        ∃ a ∈ out, a.error_message = some e.msg := by
  refine ⟨final_sort (planned_analyses cfg client zcs pts status limit), ?_,
    final_sort_perm _, ?_, planned_listings_eq client zcs pts status limit, ?_⟩
  · simp only [generate_report]
    rw [if_neg (not_lt.mpr h)]
  · rw [(final_sort_perm _).length_eq]
    simp [planned_analyses]
  · intro x hx e hcoord hc
    refine ⟨analyze_property cfg client.sold_properties x.1 (normalized_types pts),
      ((final_sort_perm _).mem_iff).mpr (List.mem_map_of_mem _ hx), ?_⟩
    simp [analyze_property, hcoord, hc]

/-! ### Evaluation facts for the concrete inputs -/

/-- The demo listing passes the coordinate truthiness check. -/
theorem listing0_coords :
    ¬ (qTruthy listing0.latitude = false ∨ qTruthy listing0.longitude = false) := by
  norm_num [listing0, qTruthy]

/-- The demo comparable passes the keep condition for the demo listing. -/
theorem comp0_keep : comp_keep cfg0 (listing0.price.getD 0) comp0 = true := by
  norm_num [comp_keep, comp0, cfg0, listing0]

/-- Filter evaluation on the demo inputs: the one comparable survives. -/
theorem fac0_eval :
    (filter_and_analyze_comps cfg0 [comp0] (listing0.price.getD 0)
      (iOrDefault listing0.squareFootage 1000)).2.2 = [mk_filtered_comp comp0] := by
  simp [filter_and_analyze_comps, comp0_keep, List.mergeSort_singleton]

/-- The demo analysis reaches the scored state. -/
theorem analyze0_scored :
    (analyze_property cfg0 client0 listing0 none).error_message = none := by
  rw [analyze_scored_eq cfg0 client0 listing0 none [comp0] listing0_coords rfl
    (by simp) (by rw [fac0_eval]; simp)]
  simp [analysis_base]

/-- The coordinate-free demo listing yields an errored analysis. -/
theorem analyzeNoCoords_errored :
    (analyze_property cfg0 client0 listingNoCoords none).error_message.isSome := by
  simp [analyze_property, listingNoCoords, qTruthy]

/-- The demo run estimate is one zip plus one listing. -/
theorem estimate_eval : estimated_api_calls clientM [zc0] none "Active" 500 = 2 := by
  simp [estimated_api_calls, distinct_zips, planned_listings, phase1, phase1_step,
    clientM, set_insert, sorted_by_price, sale_listings_param, normalized_types,
    List.mergeSort_singleton]

/-- The demo run stays within the call budget. -/
theorem budget_ok_eval :
    (estimated_api_calls clientM [zc0] none "Active" 500 : Int) ≤ cfg0.max_api_calls := by
  rw [estimate_eval]
  norm_num [cfg0]

/-! ### Witnesses -/

/-- C1 witness: the demo inputs reach the scored state and the decision
characterisation holds there. -/
theorem C1_scored_decision_witness :
    (analyze_property cfg0 client0 listing0 none).error_message = none ∧
    (((analyze_property cfg0 client0 listing0 none).decision = "Yes" ↔
      (analyze_property cfg0 client0 listing0 none).upside_profit > cfg0.upside_threshold) ∧
    ((analyze_property cfg0 client0 listing0 none).upside_profit = cfg0.upside_threshold →
      (analyze_property cfg0 client0 listing0 none).decision = "No") ∧
    (analyze_property cfg0 client0 listing0 none).upside_profit
      = (analyze_property cfg0 client0 listing0 none).upside_value
        - (analyze_property cfg0 client0 listing0 none).all_inclusive_cost ∧
    ∃ sold, client0 (sold_query cfg0 listing0 none) = Except.ok sold ∧
      (analyze_property cfg0 client0 listing0 none).upside_value
        ∈ ((filter_and_analyze_comps cfg0 sold (listing0.price.getD 0)
            (iOrDefault listing0.squareFootage 1000)).2.2).map FilteredComp.price ∧
      ∀ p ∈ ((filter_and_analyze_comps cfg0 sold (listing0.price.getD 0)
            (iOrDefault listing0.squareFootage 1000)).2.2).map FilteredComp.price,
        p ≤ (analyze_property cfg0 client0 listing0 none).upside_value) :=
  ⟨analyze0_scored, C1_scored_decision cfg0 client0 listing0 none analyze0_scored⟩

/-- C5 witness: a listing without coordinates produces an errored record
whose derived numeric fields are all zero and whose decision is No. -/
theorem C5_errored_zero_fields_witness :
    (analyze_property cfg0 client0 listingNoCoords none).error_message.isSome ∧
    ((analyze_property cfg0 client0 listingNoCoords none).best_offer_price = 0 ∧
    (analyze_property cfg0 client0 listingNoCoords none).build_up_cost = 0 ∧
    (analyze_property cfg0 client0 listingNoCoords none).financing_cost = 0 ∧
    (analyze_property cfg0 client0 listingNoCoords none).all_inclusive_cost = 0 ∧
    (analyze_property cfg0 client0 listingNoCoords none).upside_value = 0 ∧
    (analyze_property cfg0 client0 listingNoCoords none).upside_profit = 0 ∧
    (analyze_property cfg0 client0 listingNoCoords none).decision = "No") :=
  ⟨analyzeNoCoords_errored,
    C5_errored_zero_fields cfg0 client0 listingNoCoords none analyzeNoCoords_errored⟩

/-- C6 witness: the demo run passes the budget check and its output is
sorted and stable. -/
theorem C6_sort_descending_stable_witness :
    ((estimated_api_calls clientM [zc0] none "Active" 500 : Int) ≤ cfg0.max_api_calls) ∧
    (∃ out, generate_report cfg0 clientM [zc0] none "Active" 500 = Except.ok out ∧
      out.Pairwise (fun a b => b.upside_profit ≤ a.upside_profit) ∧
      ∀ q : ℚ, out.filter (fun a => decide (a.upside_profit = q))
        = (planned_analyses cfg0 clientM [zc0] none "Active" 500).filter
            (fun a => decide (a.upside_profit = q))) :=
  ⟨budget_ok_eval,
    C6_sort_descending_stable cfg0 clientM [zc0] none "Active" 500 budget_ok_eval⟩

/-- C7 witness: the demo run passes the budget check and completes with one
record per collected listing. -/
theorem C7_per_listing_failure_isolation_witness :
    ((estimated_api_calls clientM [zc0] none "Active" 500 : Int) ≤ cfg0.max_api_calls) ∧
    (∃ out, generate_report cfg0 clientM [zc0] none "Active" 500 = Except.ok out ∧
      out.Perm (planned_analyses cfg0 clientM [zc0] none "Active" 500) ∧
      out.length = (planned_listings clientM [zc0] none "Active" 500).length ∧
      planned_listings clientM [zc0] none "Active" 500 = [zc0].flatMap (fun zc =>
        match clientM.sale_listings
            (listing_query zc (sale_listings_param (normalized_types none)) "Active" 500) with
        | Except.ok ls => (sorted_by_price ls).map (fun l => (l, zc))
        | Except.error _ => []) ∧
      ∀ x ∈ planned_listings clientM [zc0] none "Active" 500, ∀ e : RentcastAPIError,
        ¬ (qTruthy x.1.latitude = false ∨ qTruthy x.1.longitude = false) →
        clientM.sold_properties (sold_query cfg0 x.1 (normalized_types none))
          = Except.error e →
        ∃ a ∈ out, a.error_message = some e.msg) :=
  ⟨budget_ok_eval,
    C7_per_listing_failure_isolation cfg0 clientM [zc0] none "Active" 500 budget_ok_eval⟩

/-- C8 witness: the fixed query offsets on the demo listing, for any
configuration default. -/
theorem C8_sold_query_ranges_witness :
    (¬ (qTruthy listing0.latitude = false ∨ qTruthy listing0.longitude = false)) ∧
    listing0.squareFootage = some 1000 ∧ (1000 : Int) ≠ 0 ∧
    listing0.bedrooms = some 3 ∧ (3 : ℚ) ≠ 0 ∧
    listing0.bathrooms = some 2 ∧ (2 : ℚ) ≠ 0 ∧
    ((sold_query cfg0 listing0 none).sqft_min = 1000 - 200 ∧
    (sold_query cfg0 listing0 none).sqft_max = 1000 + 400 ∧
    (sold_query cfg0 listing0 none).bedrooms_min = 3 ∧
    (sold_query cfg0 listing0 none).bedrooms_max = 5 ∧
    (sold_query cfg0 listing0 none).bathrooms_min = 2 ∧
    (sold_query cfg0 listing0 none).bathrooms_max = 4 ∧
    (sold_request_params (sold_query cfg0 listing0 none)).squareFootage
      = some (toString ((1000 : Int) - 200) ++ ":" ++ toString ((1000 : Int) + 400)) ∧
    (sold_request_params (sold_query cfg0 listing0 none)).bedrooms
      = some (toString (pyInt 3) ++ ":" ++ "5") ∧
    (sold_request_params (sold_query cfg0 listing0 none)).bathrooms
      = some (toString (pyInt 2) ++ ":" ++ "4") ∧
    ∀ c1 c2 : SoldQuery → Except RentcastAPIError (List SoldProperty),
      c1 (sold_query cfg0 listing0 none) = c2 (sold_query cfg0 listing0 none) →
      analyze_property cfg0 c1 listing0 none = analyze_property cfg0 c2 listing0 none) :=
  ⟨listing0_coords, rfl, by norm_num, rfl, by norm_num, rfl, by norm_num,
    C8_sold_query_ranges cfg0 listing0 none 1000 3 2 listing0_coords rfl (by norm_num)
      rfl (by norm_num) rfl (by norm_num)⟩

/-- C9 witness: the demo listing with zero square footage and missing
bedroom and bathroom counts is analyzed from the defaults. -/
theorem C9_missing_subject_defaults_witness :
    (listingDefaults.squareFootage = none ∨ listingDefaults.squareFootage = some 0) ∧
    ((analyze_property cfg0 client0 listingDefaults none).square_footage = 1000 ∧
    (sold_query cfg0 listingDefaults none).sqft_min = 800 ∧
    (sold_query cfg0 listingDefaults none).sqft_max = 1400 ∧
    ((analyze_property cfg0 client0 listingDefaults none).error_message = none →
      (analyze_property cfg0 client0 listingDefaults none).build_up_cost
        = cfg0.build_up_cost_per_sqft * 1000) ∧
    (listingDefaults.bedrooms = none →
      (sold_query cfg0 listingDefaults none).bedrooms_min = 3 ∧
      (analyze_property cfg0 client0 listingDefaults none).bedrooms = some 3) ∧
    (listingDefaults.bathrooms = none →
      (sold_query cfg0 listingDefaults none).bathrooms_min = 2 ∧
      (analyze_property cfg0 client0 listingDefaults none).bathrooms = some 2)) :=
  ⟨Or.inr rfl,
    C9_missing_subject_defaults cfg0 client0 listingDefaults none (Or.inr rfl)⟩

/-- C10 witness: a zero latitude on the demo listing is treated as a
missing coordinate. -/
theorem C10_zero_coordinate_is_missing_witness :
    (listingZeroLat.latitude = some 0 ∨ listingZeroLat.longitude = some 0) ∧
    ((analyze_property cfg0 client0 listingZeroLat none).error_message
        = some "No coordinates available for property" ∧
    (analyze_property cfg0 client0 listingZeroLat none).decision = "No" ∧
    (analyze_property cfg0 client0 listingZeroLat none).upside_profit = 0 ∧
    (analyze_property cfg0 client0 listingZeroLat none).upside_value = 0 ∧
    ∀ client2 : SoldQuery → Except RentcastAPIError (List SoldProperty),
      analyze_property cfg0 client2 listingZeroLat none
        = analyze_property cfg0 client0 listingZeroLat none) :=
  ⟨Or.inl rfl,
    C10_zero_coordinate_is_missing cfg0 client0 listingZeroLat none (Or.inl rfl)⟩
